import Mathlib

/-!
Verification development for the Workday form-extraction engine
(`src/utils/extractor.py`).  The page-automation layer is modelled as plain
data: every DOM query the Python code performs (locator counts, attribute
reads, inner texts, input values) becomes a field of a structure describing
the queried subtree.  Attribute reads that can return Python `None` are
modelled as `Option String`; Python truthiness on such values is `pyTruthy`.
Each `extract_*` coroutine of the source becomes a total Lean function over
this model; `try`/`except` blocks whose body can genuinely fail in the model
(bounded waits for popup option lists, per-item progress reads) carry an
explicit success flag or a `ReadResult`, and the handler's behaviour
(skip the item, keep the accumulator, leave UI state as is) is reproduced
faithfully.
-/

namespace Workday

/-- Python truthiness of an optional string attribute: `None` and `""` are falsy. -/
def pyTruthy : Option String → Bool
  | none => false
  | some s => s ≠ ""

/-- Rendering of an optional string inside a Python f-string: `None` prints as "None". -/
def idStr : Option String → String
  | none => "None"
  | some s => s

/-- Python `or` on two optional strings: the left value unless it is falsy. -/
def pyOr (a b : Option String) : Option String := if pyTruthy a then a else b

/-- Python `a or b` where `b` is a plain (truthy) string default. -/
def pyOrS (a : Option String) (b : String) : String :=
  if pyTruthy a then a.getD "" else b

/-- The character list of a string (in Lean 4.14 a `String` is a packed
`List Char`); all Python string primitives the source uses are modelled as
structural recursion over this list so that every definition evaluates inside
the kernel. -/
def asChars (s : String) : List Char := s.data

/-- Packing a character list back into a string. -/
def ofChars (l : List Char) : String := String.mk l

/-- ASCII whitespace as stripped by Python `str.strip` (the labels handled by
the source are ASCII). -/
def isSpaceChar (c : Char) : Bool :=
  c == ' ' || c == '\t' || c == '\n' || c == '\r'

/-- Python `s.strip()`. -/
def pyStrip (s : String) : String :=
  ofChars ((((asChars s).dropWhile isSpaceChar).reverse.dropWhile
    isSpaceChar).reverse)

/-- Python `s.replace("*", "")`: every asterisk removed. -/
def removeStars (s : String) : String :=
  ofChars ((asChars s).filter (fun c => c != '*'))

/-- ASCII lower-casing of one character. -/
def charLower (c : Char) : Char :=
  if 'A' ≤ c ∧ c ≤ 'Z' then Char.ofNat (c.toNat + 32) else c

/-- Python `s.lower()` on the ASCII range. -/
def pyLower (s : String) : String := ofChars ((asChars s).map charLower)

/-- Whether the first list is a leading segment of the second. -/
def isPrefixChars : List Char → List Char → Bool
  | [], _ => true
  | _ :: _, [] => false
  | p :: ps, c :: cs => p == c && isPrefixChars ps cs

/-- Whether the pattern occurs as a contiguous segment. -/
def isSubChars (pat : List Char) : List Char → Bool
  | [] => pat.isEmpty
  | c :: rest => isPrefixChars pat (c :: rest) || isSubChars pat rest

/-- Python substring test `pat in s`. -/
def strContains (s pat : String) : Bool := isSubChars (asChars pat) (asChars s)

/-- First-match lookup modelling `locator(...)` + `inner_text()` keyed by an id. -/
def aFind (l : List (String × String)) (k : String) : Option String :=
  (l.find? (fun e => e.1 = k)).map (fun e => e.2)

/-- One extracted form field, the `FormField` TypedDict of the source.
`id_of_input_component` is `Option String` because the source stores the raw
result of `get_attribute("id")`, which can be Python `None`. -/
structure FormField where
  label : String
  id_of_input_component : Option String
  required : Bool
  type_of_input : String
  options : List String
  user_data_select_values : List String
  section_name : String
  deriving DecidableEq, Repr

/-- One entry of the progress bar as read by `extract_application_steps`. -/
structure StepData where
  step_name : String
  is_current_step : Bool
  deriving DecidableEq, Repr

/-- Outcome of reading one progress item: the item's second label text, or a
raised error (missing label, timeout) caught by the enclosing handler. -/
inductive ReadResult where
  | ok (text : String)
  | err (msg : String)
  deriving DecidableEq, Repr

/-- Environment of one bounded popup read: whether the option list appears
within the wait (`wait_for_selector` / `wait_for` succeeding), and the inner
texts read when it does. -/
structure OptionReadEnv where
  appears : Bool
  optionTexts : List String
  deriving DecidableEq, Repr

/-- Transient popup UI state of a choice field's container. -/
inductive PopupState where
  | closed
  | opened
  deriving DecidableEq, Repr

/-- The element matching `[aria-haspopup="listbox"]` inside a container. -/
structure TriggerButton where
  id : Option String
  innerText : String
  ariaRequired : Option String
  ariaLabel : Option String
  deriving DecidableEq, Repr

/-- An `input[type="text"]` element.  `ariaLabel` is part of the DOM model and
is consulted only by the spec's normalized required rule, never by the source. -/
structure TextInputEl where
  id : Option String
  value : String
  ariaRequired : Option String
  ariaLabel : Option String
  deriving DecidableEq, Repr

/-- An `input[type="checkbox"]` element. -/
structure CheckboxEl where
  id : Option String
  checked : Bool
  ariaRequired : Option String
  deriving DecidableEq, Repr

/-- A `textarea` element. -/
structure TextareaEl where
  id : Option String
  value : String
  ariaRequired : Option String
  deriving DecidableEq, Repr

/-- An `input[type="radio"]` element.  The `value` and `id` attributes are
modelled as present, which is how the targeted pages render radio groups; the
claims settled here do not depend on their absence. -/
structure RadioInput where
  value : String
  id : String
  checkedAttr : Option String
  ariaChecked : Option String
  deriving DecidableEq, Repr

/-- The `input[type="file"]` element of a file-upload widget. -/
structure FileInputEl where
  id : Option String
  multiple : Option String
  deriving DecidableEq, Repr

/-- The `[data-automation-id="select-files"]` button of a file-upload widget. -/
structure SelectFilesBtn where
  id : Option String
  deriving DecidableEq, Repr

/-- A `[data-automation-id="attachments-FileUpload"]` widget.  `parentLabel`
is the text of the `label` found by the xpath ancestor-formField fallback. -/
structure FileUploadEl where
  ariaLabelledby : Option String
  fileInput : Option FileInputEl
  selectFiles : Option SelectFilesBtn
  fileItems : List String
  parentLabel : Option String
  deriving DecidableEq, Repr

/-- A `fieldset` element.  `hasTrigger` is `fieldset.locator(trigger).count() > 0`;
`dateWrapper` is `none` when no `dateInputWrapper` exists and `some a` when one
exists with id attribute `a`; `monthInput`/`yearInput` are the values of the
month/year sub-inputs when present.  The `div[aria-labelledby]` inner container
of a radio group is modelled as present (its two id attributes may be absent). -/
structure Fieldset where
  legendRichTextP : Option String
  legendLabel : Option String
  ariaRequired : Option String
  hasTrigger : Bool
  radios : List RadioInput
  groupDivId : Option String
  groupDivFkit : Option String
  dateWrapper : Option (Option String)
  monthInput : Option String
  yearInput : Option String
  deriving DecidableEq, Repr

/-- One `[data-automation-id^="formField-"]` container.  Sub-locators are
modelled first-match; `labels` maps a `for` attribute to the label's text,
`elementsById` resolves `#id` lookups scoped to the container, `plainLabels`
lists bare `label` elements in order, and `optionRead` is the environment of
the bounded option read for a dropdown trigger inside this container. -/
structure Container where
  trigger : Option TriggerButton
  textInput : Option TextInputEl
  checkbox : Option CheckboxEl
  textarea : Option TextareaEl
  spinbutton : Bool
  fieldset : Option Fieldset
  fileUpload : Option FileUploadEl
  labels : List (String × String)
  elementsById : List (String × String)
  plainLabels : List String
  optionRead : OptionReadEnv
  deriving DecidableEq, Repr

/-- A `[data-automation-id="multiSelectContainer"]` element. -/
structure MSContainer where
  id : Option String
  ancestorLabel : Option String
  ariaRequired : Option String
  pills : List String
  dropdownPresent : Bool
  optionRead : OptionReadEnv
  deriving DecidableEq, Repr

/-- One `li` of the progress bar: the result of reading its second label, and
its `data-automation-id` attribute. -/
structure ProgressItem where
  labelText : ReadResult
  automationId : Option String
  deriving DecidableEq, Repr

/-- One dynamic section: its `h3[id$='-section']` header data, whether the
owning `div[role="group"]` resolves, whether an add button is present, whether
the post-add bounded wait for form fields succeeds, and the containers
materialized inside the section. -/
structure Section where
  headerId : Option String
  titleRaw : String
  containerExists : Bool
  hasAddButton : Bool
  addSucceeds : Bool
  fields : List Container
  deriving DecidableEq, Repr

/-- The page model: form-field containers, multi-select containers, dynamic
sections, page-scoped label/id lookups, and the progress bar. -/
structure Page where
  containers : List Container
  multiSelects : List MSContainer
  sections : List Section
  pageLabels : List (String × String)
  elementsById : List (String × String)
  progressQueryFails : Bool
  progressItems : List ProgressItem
  deriving DecidableEq, Repr

/-- Fieldsets are modelled as residing inside form-field containers;
`page.locator("fieldset")` enumerates them in document order. -/
def Page.fieldsets (p : Page) : List Fieldset :=
  p.containers.filterMap (fun c => c.fieldset)

/-- File-upload widgets enumerated page-wide, in document order. -/
def Page.fileUploads (p : Page) : List FileUploadEl :=
  p.containers.filterMap (fun c => c.fileUpload)

/-- Source `extract_application_steps` (lines 51-66): loop body appends one
step per item; a failure while reading an item raises, the handler logs, and
the steps accumulated so far are returned. -/
def stepOfItem (it : ProgressItem) (t : String) : StepData :=
  { step_name := pyStrip t
    is_current_step := it.automationId == some "progressBarActiveStep" }

/-- Loop of `extract_application_steps`: stops at the first failing item and
returns the accumulator (the `except` path). -/
def stepsLoop : List ProgressItem → List StepData → List StepData
  | [], acc => acc
  | it :: rest, acc =>
    match it.labelText with
    | ReadResult.err _ => acc
    | ReadResult.ok t => stepsLoop rest (acc ++ [stepOfItem it t])

/-- Source `extract_application_steps`: if the initial progress-bar query
raises, the handler returns the still-empty list. -/
def extract_application_steps (p : Page) : List StepData :=
  if p.progressQueryFails then [] else stepsLoop p.progressItems []

/-- Label resolution of the dropdown-button extractor (lines 235-248): a
fieldset legend's rich text, else the legend label, else a `label[for=id]`
lookup when there is no fieldset, else "Unknown". -/
def dropdownLabelText (c : Container) (b : TriggerButton) : String :=
  match c.fieldset with
  | some fs =>
    match fs.legendRichTextP with
    | some t => t
    | none => fs.legendLabel.getD "Unknown"
  | none => (aFind c.labels (b.id.getD "")).getD "Unknown"

/-- Label resolution via `label[for="<id>"]`, as used by the text, checkbox
and textarea extractors; a missing label yields "Unknown". -/
def forLabelText (c : Container) (oid : Option String) : String :=
  (aFind c.labels (idStr oid)).getD "Unknown"

/-- Source `extract_single_dropdown_button_field` (lines 224-266).  Returns
`none` exactly when the trigger has no truthy `id` attribute. -/
def extract_single_dropdown_button_field (c : Container) (b : TriggerButton) :
    Option FormField :=
  if pyTruthy b.id then
    let input_id := b.id.getD ""
    let selRaw := pyStrip b.innerText
    let selected_label :=
      if pyLower selRaw ∈ ["select one", "select", ""] then "" else selRaw
    let label_text := dropdownLabelText c b
    let label := pyStrip (removeStars label_text)
    let is_required :=
      strContains label_text "*" || b.ariaRequired == some "true"
        || strContains (b.ariaLabel.getD "") "Required"
    some { label := label
           id_of_input_component := some input_id
           required := is_required
           type_of_input := "dropdown-button"
           options := []
           user_data_select_values := if selected_label ≠ "" then [selected_label] else []
           section_name := "" }
  else none

/-- Source `extract_single_text_field` (lines 268-287). -/
def extract_single_text_field (c : Container) (i : TextInputEl) : FormField :=
  let label_text := forLabelText c i.id
  let label := pyStrip (removeStars label_text)
  let is_required := strContains label_text "*" || i.ariaRequired == some "true"
  { label := label
    id_of_input_component := i.id
    required := is_required
    type_of_input := "text"
    options := []
    user_data_select_values := if i.value ≠ "" then [i.value] else []
    section_name := "" }

/-- Source `extract_single_checkbox_field` (lines 341-360). -/
def extract_single_checkbox_field (c : Container) (i : CheckboxEl) : FormField :=
  let label_text := forLabelText c i.id
  let label := pyStrip (removeStars label_text)
  let is_required := strContains label_text "*" || i.ariaRequired == some "true"
  { label := label
    id_of_input_component := i.id
    required := is_required
    type_of_input := "checkbox"
    options := ["Yes", "No"]
    user_data_select_values := [if i.checked then "Yes" else "No"]
    section_name := "" }

/-- Source `extract_single_textarea_field` (lines 362-381). -/
def extract_single_textarea_field (c : Container) (t : TextareaEl) : FormField :=
  let label_text := forLabelText c t.id
  let label := pyStrip (removeStars label_text)
  let is_required := strContains label_text "*" || t.ariaRequired == some "true"
  { label := label
    id_of_input_component := t.id
    required := is_required
    type_of_input := "textarea"
    options := []
    user_data_select_values := if t.value ≠ "" then [t.value] else []
    section_name := "" }

/-- Label resolution of the date extractor (lines 391-392): the fieldset's
legend label, else "Date". -/
def dateLabelText (fs : Fieldset) : String :=
  fs.legendLabel.getD "Date"

/-- Source `extract_single_date_field` (lines 383-417): `none` when the
container has no fieldset; otherwise month/year are joined with "/" only when
both are (Python-)truthy, else the current value is the empty string and the
emitted list is empty. -/
def extract_single_date_field (c : Container) : Option FormField :=
  match c.fieldset with
  | none => none
  | some fs =>
    let label_text := dateLabelText fs
    let label := pyStrip (removeStars label_text)
    let is_required := strContains label_text "*"
    let wrapper_id : Option String :=
      match fs.dateWrapper with
      | none => some "unknown"
      | some a => a
    let month_value := fs.monthInput.getD ""
    let year_value := fs.yearInput.getD ""
    let current_value :=
      if month_value ≠ "" ∧ year_value ≠ "" then month_value ++ "/" ++ year_value
      else ""
    some { label := label
           id_of_input_component := wrapper_id
           required := is_required
           type_of_input := "date"
           options := []
           user_data_select_values := if current_value ≠ "" then [current_value] else []
           section_name := "" }

/-- Python list comprehension cleaning uploaded-file texts and, for dropdown
options, `[opt.strip() for opt in options if opt.strip()]`. -/
def pyCleanTexts (l : List String) : List String :=
  l.filterMap (fun t => if pyStrip t ≠ "" then some (pyStrip t) else none)

/-- Label resolution of the container-scoped file-upload extractor
(lines 293-302): the element referenced by aria-labelledby, else the first
plain label, else "File Upload". -/
def fileLabelTextC (c : Container) (fu : FileUploadEl) : String :=
  if pyTruthy fu.ariaLabelledby then
    (aFind c.elementsById (fu.ariaLabelledby.getD "")).getD "File Upload"
  else (c.plainLabels.head?).getD "File Upload"

/-- Label resolution of the page-level file-upload extractor (lines 450-460):
the page element referenced by aria-labelledby, else the ancestor form-field
container's label, else "File Upload". -/
def fileLabelTextP (p : Page) (fu : FileUploadEl) : String :=
  if pyTruthy fu.ariaLabelledby then
    (aFind p.elementsById (fu.ariaLabelledby.getD "")).getD "File Upload"
  else fu.parentLabel.getD "File Upload"

/-- Source `extract_single_file_upload_field` (lines 290-339), container-scoped. -/
def extract_single_file_upload_field (c : Container) (fu : FileUploadEl) : FormField :=
  let label_text := fileLabelTextC c fu
  let label := pyStrip (removeStars label_text)
  let is_required := strContains label_text "*"
  let input_id0 : Option String :=
    match fu.fileInput with
    | some fi => fi.id
    | none => some "unknown"
  let input_id1 : Option String :=
    if pyTruthy input_id0 then input_id0
    else
      match fu.selectFiles with
      | some sb => sb.id
      | none => input_id0
  let multiple : Option String :=
    match fu.fileInput with
    | some fi => fi.multiple
    | none => none
  let upload_type := if multiple.isSome then "multiple-file" else "single-file"
  { label := label
    id_of_input_component := some (pyOrS input_id1 "unknown")
    required := is_required
    type_of_input := upload_type
    options := ["Select file", "Drop file"]
    user_data_select_values := pyCleanTexts fu.fileItems
    section_name := "" }

/-- Body of the top-level file-upload loop in `extract_file_upload_fields`
(lines 447-498), with the enumerate index used for the synthetic id. -/
def mkTopFileUploadField (p : Page) (idx : Nat) (fu : FileUploadEl) : FormField :=
  let label_text := fileLabelTextP p fu
  let label := pyStrip (removeStars label_text)
  let is_required := strContains label_text "*"
  let input_id0 : Option String :=
    match fu.fileInput with
    | some fi => fi.id
    | none => some ("file-upload-" ++ toString idx)
  let input_id1 : Option String :=
    if pyTruthy input_id0 then input_id0
    else
      match fu.selectFiles with
      | some sb => sb.id
      | none => input_id0
  let multiple : Option String :=
    match fu.fileInput with
    | some fi => fi.multiple
    | none => none
  let upload_type := if multiple.isSome then "multiple-file" else "single-file"
  { label := label
    id_of_input_component := some (pyOrS input_id1 ("file-upload-" ++ toString idx))
    required := is_required
    type_of_input := upload_type
    options := ["Select file", "Drop file"]
    user_data_select_values := pyCleanTexts fu.fileItems
    section_name := "main" }

/-- Source `extract_file_upload_fields` (lines 439-507). -/
def extract_file_upload_fields (p : Page) : List FormField :=
  (Page.fileUploads p).enum.map (fun e => mkTopFileUploadField p e.1 e.2)

/-- Radio option text resolution: the page-level `label[for=id]` text, else the
radio's `value` attribute (lines 652-653). -/
def radioOptionText (p : Page) (r : RadioInput) : String :=
  (aFind p.pageLabels r.id).getD r.value

/-- Label resolution of the radio extractor (lines 633-634): the fieldset's
legend label, else "Unknown". -/
def radioLabelText (fs : Fieldset) : String :=
  fs.legendLabel.getD "Unknown"

/-- Body of the per-fieldset radio loop (lines 632-668). -/
def mkRadioField (p : Page) (fs : Fieldset) : FormField :=
  let label_text := radioLabelText fs
  let label := pyStrip (removeStars label_text)
  let is_required := strContains label_text "*" || fs.ariaRequired == some "true"
  let input_id := pyOrS (pyOr fs.groupDivId fs.groupDivFkit) "unknown"
  let options := fs.radios.map (radioOptionText p)
  let selected :=
    (fs.radios.filter
      (fun r => r.checkedAttr == some "true" || r.ariaChecked == some "true")).map
      (radioOptionText p)
  { label := label
    id_of_input_component := some input_id
    required := is_required
    type_of_input := "radio"
    options := options
    user_data_select_values := selected
    section_name := "main" }

/-- Source `extract_radio_fields` (lines 613-674): fieldsets containing a
dropdown trigger are skipped before the radio check; fieldsets without radio
inputs are skipped next. -/
def extract_radio_fields (p : Page) : List FormField :=
  (Page.fieldsets p).foldl
    (fun acc fs =>
      if fs.hasTrigger then acc
      else if fs.radios.length = 0 then acc
      else acc ++ [mkRadioField p fs]) []

/-- Popup-state trace of the multiselect option read (lines 587-594), starting
from a closed popup.  The opening click happens first; if the bounded wait for
the picklist fails, the raised timeout skips the closing click and the
container's handler catches it with the popup still open. -/
def multiselectOptionRead (m : MSContainer) :
    Except PopupState (List String × PopupState) :=
  if m.dropdownPresent then
    if m.optionRead.appears then
      Except.ok (m.optionRead.optionTexts, PopupState.closed)
    else Except.error PopupState.opened
  else Except.ok ([], PopupState.closed)

/-- Label resolution of the multiselect extractor (lines 578-579): the
ancestor form-field container's label, else "Unknown". -/
def msLabelText (m : MSContainer) : String :=
  m.ancestorLabel.getD "Unknown"

/-- Body of the per-container multiselect loop (lines 573-604): id, label,
required and pills are read before the option read, so a failed option read
drops the whole field (the `append` is skipped by the handler). -/
def msFieldOf (m : MSContainer) : Option FormField :=
  let label_text := msLabelText m
  let label := pyStrip (removeStars label_text)
  let is_required := strContains label_text "*" || m.ariaRequired == some "true"
  match multiselectOptionRead m with
  | Except.error _ => none
  | Except.ok r =>
    some { label := label
           id_of_input_component := m.id
           required := is_required
           type_of_input := "multi-select"
           options := r.1
           user_data_select_values := m.pills
           section_name := "main" }

/-- Source `extract_multiselect_fields` (lines 563-610). -/
def extract_multiselect_fields (p : Page) : List FormField :=
  p.multiSelects.filterMap msFieldOf

/-- Popup-state trace of the dropdown-button option read (lines 695-705),
starting from a closed popup: click opens, and only a successful wait reaches
the Escape key; the inner handler otherwise sets the options to `[]` with the
popup still open. -/
def dropdownOptionRead (env : OptionReadEnv) : List String × PopupState :=
  if env.appears then (pyCleanTexts env.optionTexts, PopupState.closed)
  else ([], PopupState.opened)

/-- Body of the per-container dropdown loop (lines 683-708). -/
def dropdownFieldOf (c : Container) : Option FormField :=
  match c.trigger with
  | none => none
  | some b =>
    match extract_single_dropdown_button_field c b with
    | none => none
    | some f =>
      let r := dropdownOptionRead c.optionRead
      some { f with options := r.1, section_name := "main" }

/-- Source `extract_button_dropdown_fields` (lines 677-715). -/
def extract_button_dropdown_fields (p : Page) : List FormField :=
  p.containers.filterMap dropdownFieldOf

/-- Source `extract_text_fields` (lines 718-755); its loop body repeats the
computation of `extract_single_text_field` verbatim with section "main". -/
def extract_text_fields (p : Page) : List FormField :=
  p.containers.filterMap (fun c =>
    c.textInput.map (fun i =>
      { extract_single_text_field c i with section_name := "main" }))

/-- Source `extract_checkbox_fields` (lines 757-778). -/
def extract_checkbox_fields (p : Page) : List FormField :=
  p.containers.filterMap (fun c =>
    c.checkbox.map (fun i =>
      { extract_single_checkbox_field c i with section_name := "main" }))

/-- Source `extract_textarea_fields` (lines 420-436). -/
def extract_textarea_fields (p : Page) : List FormField :=
  p.containers.filterMap (fun c =>
    c.textarea.map (fun t =>
      { extract_single_textarea_field c t with section_name := "main" }))

/-- Source `extract_date_fields` (lines 545-561): only containers with an
`input[role="spinbutton"]` are considered. -/
def extract_date_fields (p : Page) : List FormField :=
  p.containers.filterMap (fun c =>
    if c.spinbutton then
      (extract_single_date_field c).map (fun f => { f with section_name := "main" })
    else none)

/-- First matching-kind attempt for a section container: dropdown trigger. -/
def tryDropdown (c : Container) : Option FormField :=
  match c.trigger with
  | some b => extract_single_dropdown_button_field c b
  | none => none

/-- Section-container attempt: text input. -/
def tryText (c : Container) : Option FormField :=
  c.textInput.map (extract_single_text_field c)

/-- Section-container attempt: checkbox. -/
def tryCheckbox (c : Container) : Option FormField :=
  c.checkbox.map (extract_single_checkbox_field c)

/-- Section-container attempt: textarea. -/
def tryTextarea (c : Container) : Option FormField :=
  c.textarea.map (extract_single_textarea_field c)

/-- Section-container attempt: date picker, guarded by a spinbutton input. -/
def tryDate (c : Container) : Option FormField :=
  if c.spinbutton then extract_single_date_field c else none

/-- Section-container attempt: file upload. -/
def tryFile (c : Container) : Option FormField :=
  c.fileUpload.map (extract_single_file_upload_field c)

/-- The `if not field:` chain of `extract_section_specific_fields`
(lines 176-213): dropdown, then text, checkbox, textarea, date, file upload;
an earlier successful attempt suppresses all later ones. -/
def classifyContainer (c : Container) : Option FormField :=
  (((((tryDropdown c).orElse fun _ => tryText c).orElse
      fun _ => tryCheckbox c).orElse
      fun _ => tryTextarea c).orElse
      fun _ => tryDate c).orElse
      fun _ => tryFile c

/-- Source `extract_section_specific_fields` (lines 166-222). -/
def extract_section_specific_fields (cs : List Container) (sname : String) :
    List FormField :=
  cs.filterMap (fun c =>
    (classifyContainer c).map (fun f => { f with section_name := sname }))

/-- Source `extract_dynamic_section_fields` (lines 118-164): sections without
a truthy header id or a resolvable group container are skipped; only sections
with an add button contribute; a failed post-add wait raises and the
per-section handler skips the section. -/
def extract_dynamic_section_fields (p : Page) : List FormField :=
  p.sections.foldl
    (fun acc s =>
      if ¬ pyTruthy s.headerId then acc
      else if ¬ s.containerExists then acc
      else if s.hasAddButton then
        if s.addSucceeds then
          acc ++ extract_section_specific_fields s.fields (pyStrip s.titleRaw)
        else acc
      else acc) []

/-- De-duplication key of the aggregator: the Python f-string
`label + "_" + id`, where a `None` id prints as "None". -/
def fieldKey (f : FormField) : String :=
  f.label ++ "_" ++ idStr f.id_of_input_component

/-- One iteration of the aggregator's dedup loop (lines 96-100): the result
list and the seen-key set, appended only for an unseen key. -/
def dedupStep (acc : List FormField × List String) (f : FormField) :
    List FormField × List String :=
  if fieldKey f ∈ acc.2 then acc else (acc.1 ++ [f], acc.2 ++ [fieldKey f])

/-- The base extractor list of `extract_all_form_fields` (lines 81-90), in
source order. -/
def base_extractors : List (Page → List FormField) :=
  [extract_multiselect_fields,
   extract_button_dropdown_fields,
   extract_radio_fields,
   extract_text_fields,
   extract_checkbox_fields,
   extract_textarea_fields,
   extract_date_fields,
   extract_file_upload_fields]

/-- Source `extract_all_form_fields` (lines 68-116): run the base extractors
in order through the dedup loop, then (unless suppressed) the dynamic-section
fields through the same loop, and return the accumulated field list. -/
def extract_all_form_fields (p : Page) (exclude_dynamic : Bool) : List FormField :=
  let acc1 := base_extractors.foldl (fun acc ex => (ex p).foldl dedupStep acc) ([], [])
  let acc2 :=
    if exclude_dynamic then acc1
    else (extract_dynamic_section_fields p).foldl dedupStep acc1
  acc2.1

/-- Python dict assignment `d[k] = v` on an insertion-ordered association
list: replace in place when the key exists, append otherwise. -/
def dictInsert (d : List (String × List FormField)) (k : String)
    (v : List FormField) : List (String × List FormField) :=
  if k ∈ d.map Prod.fst then
    d.map (fun kv => if kv.1 = k then (k, v) else kv)
  else d ++ [(k, v)]

/-- The per-step value of the walker (lines 532-538): the aggregator's output
for the current step, the empty list otherwise. -/
def stepValue (p : Page) (st : StepData) : List FormField :=
  if st.is_current_step then extract_all_form_fields p false else []

/-- Source `extract_all_steps_sequentially` (lines 510-543): one dict
assignment per progress step, keyed by the step name. -/
def extract_all_steps_sequentially (p : Page) : List (String × List FormField) :=
  (extract_application_steps p).foldl
    (fun acc st => dictInsert acc st.step_name (stepValue p st)) []

/-- Modelled from the spec (section 4.1, refinement reference only): the
normalized required rule, true when the raw label text carries a
required-marker, or the accessibility required attribute is "true", or the
accessible label contains the word "Required". -/
def specRequired (labelText : String) (ariaReq ariaLabel : Option String) : Bool :=
  strContains labelText "*" || ariaReq == some "true"
    || strContains (ariaLabel.getD "") "Required"

/-! Verification layer: a closed-form description of the aggregator's dedup
loop, and the concatenation of every extractor's raw contribution. -/

/-- First-occurrence-wins filtering of a field list against a set of already
seen keys: the closed form of the aggregator's dedup loop. -/
def keepFirst : List FormField → List String → List FormField
  | [], _ => []
  | f :: rest, seen =>
    if fieldKey f ∈ seen then keepFirst rest seen
    else f :: keepFirst rest (seen ++ [fieldKey f])

/-- Every field the aggregator feeds through the dedup loop, in feed order:
the base extractors' outputs in source order, then (unless suppressed) the
dynamic-section fields. -/
def allExtracted (p : Page) (exclude_dynamic : Bool) : List FormField :=
  (base_extractors.map (fun ex => ex p)).flatten ++
    (if exclude_dynamic then [] else extract_dynamic_section_fields p)

theorem foldl_dedupStep_eq (l : List FormField) :
    ∀ (res : List FormField) (seen : List String),
      l.foldl dedupStep (res, seen) =
        (res ++ keepFirst l seen, seen ++ (keepFirst l seen).map fieldKey) := by
  induction l with
  | nil => intro res seen; simp [keepFirst]
  | cons f rest ih =>
    intro res seen
    by_cases h : fieldKey f ∈ seen
    · simp [List.foldl_cons, dedupStep, h, ih, keepFirst]
    · simp [List.foldl_cons, dedupStep, h, ih, keepFirst, List.append_assoc]

theorem foldl_extractors_eq (p : Page) (L : List (Page → List FormField)) :
    ∀ acc : List FormField × List String,
      L.foldl (fun a ex => (ex p).foldl dedupStep a) acc =
        ((L.map (fun ex => ex p)).flatten).foldl dedupStep acc := by
  induction L with
  | nil => intro acc; simp
  | cons e L ih => intro acc; simp [List.foldl_append, ih]

/-- The aggregator equals first-wins filtering of the concatenated extractor
outputs. -/
theorem extract_all_form_fields_eq (p : Page) (b : Bool) :
    extract_all_form_fields p b = keepFirst (allExtracted p b) [] := by
  cases b with
  | true =>
    have h1 : extract_all_form_fields p true =
        (base_extractors.foldl (fun acc ex => (ex p).foldl dedupStep acc) ([], [])).1 := by
      simp [extract_all_form_fields]
    rw [h1, foldl_extractors_eq, foldl_dedupStep_eq]
    simp [allExtracted]
  | false =>
    have h1 : extract_all_form_fields p false =
        ((extract_dynamic_section_fields p).foldl dedupStep
          (base_extractors.foldl (fun acc ex => (ex p).foldl dedupStep acc) ([], []))).1 := by
      simp [extract_all_form_fields]
    rw [h1, foldl_extractors_eq, ← List.foldl_append, foldl_dedupStep_eq]
    simp [allExtracted]

theorem keepFirst_key_not_seen {l : List FormField} :
    ∀ {seen : List String} {f : FormField}, f ∈ keepFirst l seen →
      fieldKey f ∉ seen := by
  induction l with
  | nil => intro seen f h; simp [keepFirst] at h
  | cons g rest ih =>
    intro seen f h
    by_cases hg : fieldKey g ∈ seen
    · simp [keepFirst, hg] at h
      exact ih h
    · simp [keepFirst, hg] at h
      rcases h with h | h
      · subst h; exact hg
      · have := ih h
        intro hf
        exact this (by simp [hf])

theorem keepFirst_keys_nodup (l : List FormField) :
    ∀ seen : List String, ((keepFirst l seen).map fieldKey).Nodup := by
  induction l with
  | nil => intro seen; simp [keepFirst]
  | cons g rest ih =>
    intro seen
    by_cases hg : fieldKey g ∈ seen
    · simp [keepFirst, hg, ih]
    · simp only [keepFirst, hg, if_false, List.map_cons, List.nodup_cons]
      refine ⟨?_, ih _⟩
      intro hmem
      rcases List.mem_map.1 hmem with ⟨f, hf, hkey⟩
      have := keepFirst_key_not_seen hf
      exact this (by simp [hkey])

theorem keepFirst_find? {l : List FormField} :
    ∀ {seen : List String} {f : FormField}, f ∈ keepFirst l seen →
      l.find? (fun g => fieldKey g == fieldKey f) = some f := by
  induction l with
  | nil => intro seen f h; simp [keepFirst] at h
  | cons g rest ih =>
    intro seen f h
    by_cases hg : fieldKey g ∈ seen
    · simp only [keepFirst, hg, if_true] at h
      have hne : fieldKey g ≠ fieldKey f := by
        intro hk; exact keepFirst_key_not_seen h (hk ▸ hg)
      rw [List.find?_cons_of_neg _ (by simp [hne])]
      exact ih h
    · simp only [keepFirst, hg, if_false, List.mem_cons] at h
      rcases h with h | h
      · subst h
        exact List.find?_cons_of_pos _ (by simp)
      · have hnot := keepFirst_key_not_seen h
        have hne : fieldKey g ≠ fieldKey f := by
          intro hk
          exact hnot (by simp [hk])
        rw [List.find?_cons_of_neg _ (by simp [hne])]
        exact ih h

theorem keepFirst_mem {l : List FormField} {seen : List String} {f : FormField}
    (h : f ∈ keepFirst l seen) : f ∈ l :=
  List.mem_of_find?_eq_some (keepFirst_find? h)

theorem keepFirst_covers {l : List FormField} :
    ∀ {seen : List String} {g : FormField}, g ∈ l → fieldKey g ∉ seen →
      ∃ f ∈ keepFirst l seen, fieldKey f = fieldKey g := by
  induction l with
  | nil => intro seen g h; simp at h
  | cons a rest ih =>
    intro seen g hg hns
    by_cases ha : fieldKey a ∈ seen
    · rcases List.mem_cons.1 hg with h | h
      · subst h; exact absurd ha hns
      · rcases ih h hns with ⟨f, hf, hk⟩
        exact ⟨f, by simp [keepFirst, ha, hf], hk⟩
    · by_cases hak : fieldKey a = fieldKey g
      · exact ⟨a, by simp [keepFirst, ha], hak⟩
      · rcases List.mem_cons.1 hg with h | h
        · subst h; exact absurd rfl hak
        · have hns2 : fieldKey g ∉ seen ++ [fieldKey a] := by
            intro hmem
            rcases List.mem_append.1 hmem with hm | hm
            · exact hns hm
            · exact hak (List.mem_singleton.1 hm).symm
          rcases ih h hns2 with ⟨f, hf, hk⟩
          exact ⟨f, by simp [keepFirst, ha, hf], hk⟩

/-! Per-extractor facts: which `type_of_input` each extractor can emit, and
where its fields come from. -/

theorem dropdown_single_type {c : Container} {b : TriggerButton} {f : FormField}
    (h : extract_single_dropdown_button_field c b = some f) :
    f.type_of_input = "dropdown-button" := by
  unfold extract_single_dropdown_button_field at h
  by_cases hb : pyTruthy b.id
  · simp [hb] at h; rw [← h]
  · simp [hb] at h

theorem dropdown_single_of_truthy {c : Container} {b : TriggerButton}
    (h : pyTruthy b.id = true) :
    ∃ f, extract_single_dropdown_button_field c b = some f := by
  unfold extract_single_dropdown_button_field
  simp [h]

theorem date_single_type {c : Container} {f : FormField}
    (h : extract_single_date_field c = some f) : f.type_of_input = "date" := by
  unfold extract_single_date_field at h
  cases hf : c.fieldset with
  | none => rw [hf] at h; simp at h
  | some fs => rw [hf] at h; simp at h; rw [← h]

theorem file_single_type (c : Container) (fu : FileUploadEl) :
    (extract_single_file_upload_field c fu).type_of_input ∈
      ["single-file", "multiple-file"] := by
  unfold extract_single_file_upload_field
  by_cases h : (match fu.fileInput with
    | some fi => fi.multiple
    | none => none : Option String).isSome
  · simp [h]
  · simp [h]

theorem file_top_type (p : Page) (idx : Nat) (fu : FileUploadEl) :
    (mkTopFileUploadField p idx fu).type_of_input ∈
      ["single-file", "multiple-file"] := by
  unfold mkTopFileUploadField
  by_cases h : (match fu.fileInput with
    | some fi => fi.multiple
    | none => none : Option String).isSome
  · simp [h]
  · simp [h]

theorem ms_field_type {m : MSContainer} {f : FormField}
    (h : msFieldOf m = some f) : f.type_of_input = "multi-select" := by
  unfold msFieldOf at h
  cases hr : multiselectOptionRead m with
  | error st => rw [hr] at h; simp at h
  | ok r => rw [hr] at h; simp at h; rw [← h]

theorem types_multiselect {p : Page} {f : FormField}
    (h : f ∈ extract_multiselect_fields p) : f.type_of_input = "multi-select" := by
  rcases List.mem_filterMap.1 h with ⟨m, _, hm⟩
  exact ms_field_type hm

theorem dropdownFieldOf_type {c : Container} {f : FormField}
    (h : dropdownFieldOf c = some f) : f.type_of_input = "dropdown-button" := by
  cases ht : c.trigger with
  | none => simp [dropdownFieldOf, ht] at h
  | some b =>
    cases hd : extract_single_dropdown_button_field c b with
    | none => simp [dropdownFieldOf, ht, hd] at h
    | some f0 =>
      simp [dropdownFieldOf, ht, hd] at h
      have := dropdown_single_type hd
      rw [← h]
      simpa using this

theorem types_dropdown {p : Page} {f : FormField}
    (h : f ∈ extract_button_dropdown_fields p) :
    f.type_of_input = "dropdown-button" := by
  rcases List.mem_filterMap.1 h with ⟨c, _, hc⟩
  exact dropdownFieldOf_type hc

theorem types_text {p : Page} {f : FormField}
    (h : f ∈ extract_text_fields p) : f.type_of_input = "text" := by
  rcases List.mem_filterMap.1 h with ⟨c, _, hc⟩
  rcases Option.map_eq_some'.1 hc with ⟨i, _, hf⟩
  rw [← hf]
  rfl

theorem types_checkbox {p : Page} {f : FormField}
    (h : f ∈ extract_checkbox_fields p) : f.type_of_input = "checkbox" := by
  rcases List.mem_filterMap.1 h with ⟨c, _, hc⟩
  rcases Option.map_eq_some'.1 hc with ⟨i, _, hf⟩
  rw [← hf]
  rfl

theorem types_textarea {p : Page} {f : FormField}
    (h : f ∈ extract_textarea_fields p) : f.type_of_input = "textarea" := by
  rcases List.mem_filterMap.1 h with ⟨c, _, hc⟩
  rcases Option.map_eq_some'.1 hc with ⟨t, _, hf⟩
  rw [← hf]
  rfl

theorem types_date {p : Page} {f : FormField}
    (h : f ∈ extract_date_fields p) : f.type_of_input = "date" := by
  rcases List.mem_filterMap.1 h with ⟨c, _, hc⟩
  by_cases hs : c.spinbutton
  · rw [if_pos hs] at hc
    rcases Option.map_eq_some'.1 hc with ⟨f0, hf0, hf⟩
    have := date_single_type hf0
    rw [← hf]
    simpa using this
  · rw [if_neg hs] at hc; simp at hc

theorem types_file {p : Page} {f : FormField}
    (h : f ∈ extract_file_upload_fields p) :
    f.type_of_input ∈ ["single-file", "multiple-file"] := by
  rcases List.mem_map.1 h with ⟨e, _, hf⟩
  rw [← hf]
  exact file_top_type p e.1 e.2

/-- The radio pass in closed form: the radio-bearing, trigger-free fieldsets. -/
theorem extract_radio_fields_eq (p : Page) :
    extract_radio_fields p =
      ((Page.fieldsets p).filter
        (fun fs => !fs.hasTrigger && !(fs.radios.length == 0))).map
        (mkRadioField p) := by
  unfold extract_radio_fields
  suffices h : ∀ (fss : List Fieldset) (acc : List FormField),
      fss.foldl (fun acc fs =>
        if fs.hasTrigger then acc
        else if fs.radios.length = 0 then acc
        else acc ++ [mkRadioField p fs]) acc =
      acc ++ ((fss.filter
        (fun fs => !fs.hasTrigger && !(fs.radios.length == 0))).map
        (mkRadioField p)) by
    rw [h]
    simp
  intro fss
  induction fss with
  | nil => intro acc; simp
  | cons fs rest ih =>
    intro acc
    rw [List.foldl_cons, List.filter_cons]
    by_cases h1 : fs.hasTrigger
    · have hb : (!fs.hasTrigger && !(fs.radios.length == 0)) = false := by
        rw [h1]; rfl
      rw [if_pos h1, ih, hb]
      simp
    · have hba : fs.hasTrigger = false := by simpa using h1
      by_cases h2 : fs.radios.length = 0
      · have hb : (!fs.hasTrigger && !(fs.radios.length == 0)) = false := by
          rw [hba, h2]; rfl
        rw [if_neg h1, if_pos h2, ih, hb]
        simp
      · have hbb : (fs.radios.length == 0) = false := by simpa using h2
        have hb : (!fs.hasTrigger && !(fs.radios.length == 0)) = true := by
          rw [hba, hbb]; rfl
        rw [if_neg h1, if_neg h2, ih, hb]
        simp

theorem types_radio {p : Page} {f : FormField}
    (h : f ∈ extract_radio_fields p) : f.type_of_input = "radio" := by
  rw [extract_radio_fields_eq] at h
  rcases List.mem_map.1 h with ⟨fs, _, hf⟩
  rw [← hf]
  rfl

/-- Radio descriptors only arise from trigger-free fieldsets of the page. -/
theorem radio_provenance {p : Page} {f : FormField}
    (h : f ∈ extract_radio_fields p) :
    ∃ fs ∈ Page.fieldsets p, fs.hasTrigger = false ∧ fs.radios ≠ [] ∧
      f = mkRadioField p fs := by
  rw [extract_radio_fields_eq] at h
  rcases List.mem_map.1 h with ⟨fs, hfs, hf⟩
  rcases List.mem_filter.1 hfs with ⟨hmem, hcond⟩
  simp only [Bool.and_eq_true, Bool.not_eq_true', beq_iff_eq] at hcond
  refine ⟨fs, hmem, hcond.1, ?_, hf.symm⟩
  intro hnil
  have := hcond.2
  rw [hnil] at this
  simp at this

theorem tryDropdown_type {c : Container} {f : FormField}
    (h : tryDropdown c = some f) : f.type_of_input = "dropdown-button" := by
  unfold tryDropdown at h
  cases ht : c.trigger with
  | none => rw [ht] at h; simp at h
  | some b => rw [ht] at h; exact dropdown_single_type h

theorem tryDate_date {c : Container} {f : FormField}
    (h : tryDate c = some f) : extract_single_date_field c = some f := by
  unfold tryDate at h
  by_cases hs : c.spinbutton
  · rwa [if_pos hs] at h
  · rw [if_neg hs] at h; simp at h

/-- The section classifier only emits the seven section-reachable kinds. -/
theorem classify_type {c : Container} {f : FormField}
    (h : classifyContainer c = some f) :
    f.type_of_input ∈
      ["dropdown-button", "text", "checkbox", "textarea", "date",
       "single-file", "multiple-file"] := by
  unfold classifyContainer at h
  cases h1 : tryDropdown c with
  | some g =>
    simp [h1, Option.orElse] at h
    subst h
    simp [tryDropdown_type h1]
  | none =>
  cases h2 : tryText c with
  | some g =>
    simp [h1, h2, Option.orElse] at h
    subst h
    rcases Option.map_eq_some'.1 h2 with ⟨i, _, hf⟩
    rw [← hf]
    simp [extract_single_text_field]
  | none =>
  cases h3 : tryCheckbox c with
  | some g =>
    simp [h1, h2, h3, Option.orElse] at h
    subst h
    rcases Option.map_eq_some'.1 h3 with ⟨i, _, hf⟩
    rw [← hf]
    simp [extract_single_checkbox_field]
  | none =>
  cases h4 : tryTextarea c with
  | some g =>
    simp [h1, h2, h3, h4, Option.orElse] at h
    subst h
    rcases Option.map_eq_some'.1 h4 with ⟨t, _, hf⟩
    rw [← hf]
    simp [extract_single_textarea_field]
  | none =>
  cases h5 : tryDate c with
  | some g =>
    simp [h1, h2, h3, h4, h5, Option.orElse] at h
    subst h
    simp [date_single_type (tryDate_date h5)]
  | none =>
  cases h6 : tryFile c with
  | some g =>
    simp [h1, h2, h3, h4, h5, h6, Option.orElse] at h
    subst h
    rcases Option.map_eq_some'.1 h6 with ⟨fu, _, hf⟩
    rw [← hf]
    have := file_single_type c fu
    simp at this
    rcases this with hh | hh <;> simp [hh]
  | none =>
    simp [h1, h2, h3, h4, h5, h6, Option.orElse] at h

theorem mem_section_specific {cs : List Container} {nm : String} {f : FormField}
    (h : f ∈ extract_section_specific_fields cs nm) :
    ∃ c ∈ cs, ∃ f0, classifyContainer c = some f0 ∧
      f = { f0 with section_name := nm } := by
  rcases List.mem_filterMap.1 h with ⟨c, hc, hf⟩
  rcases Option.map_eq_some'.1 hf with ⟨f0, hf0, hff⟩
  exact ⟨c, hc, f0, hf0, hff.symm⟩

theorem mem_dynamic_sections {p : Page} {f : FormField}
    (h : f ∈ extract_dynamic_section_fields p) :
    ∃ s ∈ p.sections, f ∈ extract_section_specific_fields s.fields (pyStrip s.titleRaw) := by
  unfold extract_dynamic_section_fields at h
  suffices hs : ∀ (ss : List Section) (acc : List FormField),
      f ∈ ss.foldl (fun acc s =>
        if ¬ pyTruthy s.headerId then acc
        else if ¬ s.containerExists then acc
        else if s.hasAddButton then
          if s.addSucceeds then
            acc ++ extract_section_specific_fields s.fields (pyStrip s.titleRaw)
          else acc
        else acc) acc →
      f ∈ acc ∨ ∃ s ∈ ss, f ∈ extract_section_specific_fields s.fields (pyStrip s.titleRaw) by
    rcases hs p.sections [] h with hacc | hgood
    · simp at hacc
    · exact hgood
  intro ss
  induction ss with
  | nil => intro acc hh; exact Or.inl hh
  | cons s rest ih =>
    intro acc hh
    simp only [List.foldl_cons] at hh
    by_cases c1 : pyTruthy s.headerId
    · by_cases c2 : s.containerExists
      · by_cases c3 : s.hasAddButton
        · by_cases c4 : s.addSucceeds
          · simp only [c1, c2, c3, c4, not_true, if_false, if_true] at hh
            rcases ih _ hh with hacc | hgood
            · rcases List.mem_append.1 hacc with hl | hr
              · exact Or.inl hl
              · exact Or.inr ⟨s, by simp, hr⟩
            · rcases hgood with ⟨s', hs', hf'⟩
              exact Or.inr ⟨s', by simp [hs'], hf'⟩
          · simp only [c1, c2, c3, c4, not_true, if_false, if_true] at hh
            rcases ih _ hh with hacc | hgood
            · exact Or.inl hacc
            · rcases hgood with ⟨s', hs', hf'⟩
              exact Or.inr ⟨s', by simp [hs'], hf'⟩
        · simp only [c1, c2, c3, not_true, if_false, if_true] at hh
          rcases ih _ hh with hacc | hgood
          · exact Or.inl hacc
          · rcases hgood with ⟨s', hs', hf'⟩
            exact Or.inr ⟨s', by simp [hs'], hf'⟩
      · simp only [c1, c2, not_true, not_false_iff, if_false, if_true] at hh
        rcases ih _ hh with hacc | hgood
        · exact Or.inl hacc
        · rcases hgood with ⟨s', hs', hf'⟩
          exact Or.inr ⟨s', by simp [hs'], hf'⟩
    · simp only [c1, not_false_iff, if_true] at hh
      rcases ih _ hh with hacc | hgood
      · exact Or.inl hacc
      · rcases hgood with ⟨s', hs', hf'⟩
        exact Or.inr ⟨s', by simp [hs'], hf'⟩

theorem types_dynamic {p : Page} {f : FormField}
    (h : f ∈ extract_dynamic_section_fields p) :
    f.type_of_input ∈
      ["dropdown-button", "text", "checkbox", "textarea", "date",
       "single-file", "multiple-file"] := by
  rcases mem_dynamic_sections h with ⟨s, _, hf⟩
  rcases mem_section_specific hf with ⟨c, _, f0, hc, hff⟩
  have := classify_type hc
  rw [hff]
  simpa using this

/-! Date-field value shape. -/

theorem append_slash_ne_empty (m y : String) : m ++ "/" ++ y ≠ "" := by
  intro h
  have hl := congrArg String.length h
  rw [String.length_append, String.length_append] at hl
  have h1 : ("/" : String).length = 1 := rfl
  have h0 : ("" : String).length = 0 := rfl
  rw [h1, h0] at hl
  omega

theorem date_single_shape {c : Container} {fs : Fieldset} {f : FormField}
    (hfs : c.fieldset = some fs) (h : extract_single_date_field c = some f) :
    f.options = [] ∧
    (fs.monthInput.getD "" ≠ "" ∧ fs.yearInput.getD "" ≠ "" →
      f.user_data_select_values =
        [fs.monthInput.getD "" ++ "/" ++ fs.yearInput.getD ""]) ∧
    ((fs.monthInput.getD "" = "" ∨ fs.yearInput.getD "" = "") →
      f.user_data_select_values = []) := by
  simp only [extract_single_date_field, hfs, Option.some.injEq] at h
  subst h
  refine ⟨rfl, ?_, ?_⟩
  · intro hmy
    simp only [if_pos hmy]
    rw [if_pos (append_slash_ne_empty _ _)]
  · intro hz
    have hcond : ¬ (fs.monthInput.getD "" ≠ "" ∧ fs.yearInput.getD "" ≠ "") := by
      rcases hz with hz | hz
      · intro hc; exact hc.1 hz
      · intro hc; exact hc.2 hz
    simp only [if_neg hcond]
    simp

theorem date_single_values_shape {c : Container} {f : FormField}
    (h : extract_single_date_field c = some f) :
    f.options = [] ∧
    (f.user_data_select_values = [] ∨
      ∃ m y, m ≠ "" ∧ y ≠ "" ∧ f.user_data_select_values = [m ++ "/" ++ y]) := by
  cases hfs : c.fieldset with
  | none => simp [extract_single_date_field, hfs] at h
  | some fs =>
    rcases date_single_shape hfs h with ⟨hopt, hboth, hmiss⟩
    refine ⟨hopt, ?_⟩
    by_cases hm : fs.monthInput.getD "" = ""
    · exact Or.inl (hmiss (Or.inl hm))
    · by_cases hy : fs.yearInput.getD "" = ""
      · exact Or.inl (hmiss (Or.inr hy))
      · exact Or.inr ⟨fs.monthInput.getD "", fs.yearInput.getD "", hm, hy, hboth ⟨hm, hy⟩⟩

/-! Progress-bar loop in closed form. -/

/-- Whether reading a progress item succeeded. -/
def isOkRead : ReadResult → Bool
  | ReadResult.ok _ => true
  | ReadResult.err _ => false

/-- The step built from a successfully read progress item. -/
def stepOfOkItem (it : ProgressItem) : StepData :=
  match it.labelText with
  | ReadResult.ok t => stepOfItem it t
  | ReadResult.err _ => { step_name := "", is_current_step := false }

theorem stepsLoop_eq (items : List ProgressItem) :
    ∀ acc, stepsLoop items acc =
      acc ++ (items.takeWhile (fun it => isOkRead it.labelText)).map stepOfOkItem := by
  induction items with
  | nil => intro acc; simp [stepsLoop]
  | cons it rest ih =>
    intro acc
    cases hl : it.labelText with
    | err m =>
      simp [stepsLoop, hl, List.takeWhile_cons, isOkRead]
    | ok t =>
      simp [stepsLoop, hl, ih, List.takeWhile_cons, isOkRead, stepOfOkItem]

/-- The step reader in closed form: the steps of the longest prefix of
successfully read items (all items when none fails), or the empty list when
the initial progress-bar query fails. -/
theorem extract_application_steps_eq (p : Page) :
    extract_application_steps p =
      if p.progressQueryFails then []
      else (p.progressItems.takeWhile (fun it => isOkRead it.labelText)).map
        stepOfOkItem := by
  unfold extract_application_steps
  by_cases h : p.progressQueryFails
  · simp [h]
  · simp [h, stepsLoop_eq]

/-! Python dict semantics of the step walker. -/

theorem dictInsert_of_not_mem {d : List (String × List FormField)} {k : String}
    {v : List FormField} (h : k ∉ d.map Prod.fst) :
    dictInsert d k v = d ++ [(k, v)] := by
  simp [dictInsert, h]

theorem find?_map_replace_self (k : String) (v : List FormField) :
    ∀ d : List (String × List FormField), k ∈ d.map Prod.fst →
      (d.map (fun kv => if kv.1 = k then (k, v) else kv)).find?
        (fun e => e.1 == k) = some (k, v) := by
  intro d
  induction d with
  | nil => intro h; simp at h
  | cons kv rest ih =>
    intro h
    by_cases hk : kv.1 = k
    · simp only [List.map_cons, if_pos hk]
      exact List.find?_cons_of_pos _ (by simp)
    · simp only [List.map_cons, if_neg hk]
      rw [List.find?_cons_of_neg _ (by simp [hk])]
      apply ih
      simp only [List.map_cons, List.mem_cons] at h
      rcases h with h | h
      · exact absurd h.symm hk
      · exact h

theorem find?_append_keyed_self (k : String) (v : List FormField) :
    ∀ d : List (String × List FormField), k ∉ d.map Prod.fst →
      (d ++ [(k, v)]).find? (fun e => e.1 == k) = some (k, v) := by
  intro d
  induction d with
  | nil =>
    intro _
    simp [List.find?]
  | cons kv rest ih =>
    intro h
    have hk : kv.1 ≠ k := by
      intro hc
      exact h (by simp [hc])
    rw [List.cons_append, List.find?_cons_of_neg _ (by simp [hk])]
    apply ih
    intro hc
    exact h (by simp [hc])

theorem find?_dictInsert_self (d : List (String × List FormField)) (k : String)
    (v : List FormField) :
    (dictInsert d k v).find? (fun e => e.1 == k) = some (k, v) := by
  by_cases h : k ∈ d.map Prod.fst
  · rw [dictInsert, if_pos h]
    exact find?_map_replace_self k v d h
  · rw [dictInsert_of_not_mem h]
    exact find?_append_keyed_self k v d h

theorem find?_dictInsert_other {k k' : String} (h : k' ≠ k)
    (v : List FormField) :
    ∀ d : List (String × List FormField),
      (dictInsert d k v).find? (fun e => e.1 == k') =
        d.find? (fun e => e.1 == k') := by
  intro d
  by_cases hmem : k ∈ d.map Prod.fst
  · rw [dictInsert, if_pos hmem]
    clear hmem
    induction d with
    | nil => simp
    | cons kv rest ih =>
      by_cases hk : kv.1 = k
      · simp only [List.map_cons, if_pos hk]
        rw [List.find?_cons_of_neg _ (by simp [Ne.symm h]),
          List.find?_cons_of_neg _ (by simp [hk, Ne.symm h])]
        exact ih
      · simp only [List.map_cons, if_neg hk]
        by_cases hk' : kv.1 = k'
        · rw [List.find?_cons_of_pos _ (by simp [hk']),
            List.find?_cons_of_pos _ (by simp [hk'])]
        · rw [List.find?_cons_of_neg _ (by simp [hk']),
            List.find?_cons_of_neg _ (by simp [hk'])]
          exact ih
  · rw [dictInsert_of_not_mem hmem]
    rw [List.find?_append]
    cases hf : d.find? (fun e => e.1 == k') with
    | some x => simp [hf]
    | none =>
      have hkk : (k == k') = false := beq_eq_false_iff_ne.mpr (Ne.symm h)
      simp [hkk, List.find?]

theorem cons_getLast? {α : Type} (a : α) {l : List α} (h : l ≠ []) :
    (a :: l).getLast? = l.getLast? := by
  cases l with
  | nil => exact absurd rfl h
  | cons b t => exact List.getLast?_cons_cons

theorem cons_getLast?_eq_some {α : Type} (a : α) (l : List α) :
    ∃ y, (a :: l).getLast? = some y := by
  induction l generalizing a with
  | nil => exact ⟨a, rfl⟩
  | cons b t ih =>
    rw [List.getLast?_cons_cons]
    exact ih b

/-- Looking a key up after the walker's fold finds the entry of the last
progress step bearing that name; earlier same-named entries are overwritten. -/
theorem walker_fold_lookup (p : Page) :
    ∀ (sts : List StepData) (acc : List (String × List FormField)) (k : String),
      ((sts.foldl (fun a st => dictInsert a st.step_name (stepValue p st)) acc).find?
          (fun e => e.1 == k)) =
        match (sts.filter (fun st => st.step_name == k)).getLast? with
        | some st => some (k, stepValue p st)
        | none => acc.find? (fun e => e.1 == k) := by
  intro sts
  induction sts with
  | nil => intro acc k; simp
  | cons st rest ih =>
    intro acc k
    rw [List.foldl_cons, ih, List.filter_cons]
    by_cases hname : st.step_name = k
    · have hb : (st.step_name == k) = true := by simp [hname]
      rw [hb, if_pos rfl]
      cases hfr : rest.filter (fun st => st.step_name == k) with
      | nil =>
        simp only [List.getLast?_nil, List.getLast?_singleton]
        rw [← hname]
        exact find?_dictInsert_self acc st.step_name (stepValue p st)
      | cons x xs =>
        rw [cons_getLast? st (by simp)]
        rcases cons_getLast?_eq_some x xs with ⟨y, hy⟩
        rw [hy]
    · have hb : (st.step_name == k) = false := by simp [hname]
      rw [hb]
      simp only [Bool.false_eq_true, if_false]
      cases hfr : rest.filter (fun st => st.step_name == k) with
      | nil =>
        simp only [List.getLast?_nil]
        exact find?_dictInsert_other (fun hc => hname hc.symm) _ acc
      | cons x xs =>
        rcases cons_getLast?_eq_some x xs with ⟨y, hy⟩
        rw [hy]

/-- With pairwise distinct step names the walker's fold is a plain append of
one entry per step, in step order. -/
theorem walker_fold_nodup (p : Page) :
    ∀ (sts : List StepData) (acc : List (String × List FormField)),
      (sts.map (fun st => st.step_name)).Nodup →
      (∀ st ∈ sts, st.step_name ∉ acc.map Prod.fst) →
      sts.foldl (fun a st => dictInsert a st.step_name (stepValue p st)) acc =
        acc ++ sts.map (fun st => (st.step_name, stepValue p st)) := by
  intro sts
  induction sts with
  | nil => intro acc _ _; simp
  | cons st rest ih =>
    intro acc hnd hacc
    rw [List.foldl_cons, dictInsert_of_not_mem (hacc st (by simp))]
    rw [List.map_cons, List.nodup_cons] at hnd
    rw [ih _ hnd.2]
    · simp
    · intro st' hst'
      rw [List.map_append]
      intro hmem
      rcases List.mem_append.1 hmem with hm | hm
      · exact hacc st' (by simp [hst']) hm
      · simp at hm
        apply hnd.1
        rw [← hm]
        exact List.mem_map.2 ⟨st', hst', rfl⟩

/-- The keys accumulated by repeated dict insertion. -/
def insKey (ks : List String) (k : String) : List String :=
  if k ∈ ks then ks else ks ++ [k]

theorem map_fst_replace (k : String) (v : List FormField) :
    ∀ d : List (String × List FormField),
      (d.map (fun kv => if kv.1 = k then (k, v) else kv)).map Prod.fst =
        d.map Prod.fst := by
  intro d
  induction d with
  | nil => simp
  | cons kv rest ih =>
    by_cases hk : kv.1 = k
    · simp only [List.map_cons, if_pos hk, ih]
      rw [← hk]
    · simp only [List.map_cons, if_neg hk, ih]

theorem dictInsert_keys (d : List (String × List FormField)) (k : String)
    (v : List FormField) :
    (dictInsert d k v).map Prod.fst = insKey (d.map Prod.fst) k := by
  by_cases h : k ∈ d.map Prod.fst
  · rw [dictInsert, if_pos h, insKey, if_pos h]
    exact map_fst_replace k v d
  · rw [dictInsert_of_not_mem h, insKey, if_neg h]
    simp

theorem walker_fold_keys (p : Page) :
    ∀ (sts : List StepData) (acc : List (String × List FormField)),
      (sts.foldl (fun a st => dictInsert a st.step_name (stepValue p st)) acc).map
          Prod.fst =
        (sts.map (fun st => st.step_name)).foldl insKey (acc.map Prod.fst) := by
  intro sts
  induction sts with
  | nil => intro acc; simp
  | cons st rest ih =>
    intro acc
    rw [List.foldl_cons, ih, List.map_cons, List.foldl_cons, dictInsert_keys]

theorem insKey_length_le (ks : List String) (k : String) :
    (insKey ks k).length ≤ ks.length + 1 := by
  unfold insKey
  by_cases h : k ∈ ks
  · simp [h]
  · simp [h]

theorem insKey_foldl_length_le :
    ∀ (ns ks : List String), (ns.foldl insKey ks).length ≤ ks.length + ns.length := by
  intro ns
  induction ns with
  | nil => intro ks; simp
  | cons n rest ih =>
    intro ks
    rw [List.foldl_cons]
    have h1 := ih (insKey ks n)
    have h2 := insKey_length_le ks n
    simp only [List.length_cons]
    omega

theorem insKey_foldl_length_lt_of_mem :
    ∀ (ns ks : List String), (∃ x ∈ ns, x ∈ ks) →
      (ns.foldl insKey ks).length < ks.length + ns.length := by
  intro ns
  induction ns with
  | nil => intro ks h; simp at h
  | cons n rest ih =>
    intro ks hx
    rcases hx with ⟨x, hxmem, hxks⟩
    rw [List.foldl_cons]
    simp only [List.length_cons]
    by_cases hn : n ∈ ks
    · have h2 : insKey ks n = ks := by simp [insKey, hn]
      rw [h2]
      have h1 := insKey_foldl_length_le rest ks
      omega
    · have h3 : (insKey ks n).length = ks.length + 1 := by simp [insKey, hn]
      rcases List.mem_cons.1 hxmem with hr | hr
      · exact absurd (hr ▸ hxks) hn
      · have h1 := ih (insKey ks n)
          ⟨x, hr, by simp only [insKey, hn, if_neg]; exact List.mem_append_left _ hxks⟩
        omega

theorem insKey_foldl_length_lt_of_dup :
    ∀ (ns ks : List String), ¬ ns.Nodup →
      (ns.foldl insKey ks).length < ks.length + ns.length := by
  intro ns
  induction ns with
  | nil => intro ks h; exact absurd List.nodup_nil h
  | cons n rest ih =>
    intro ks hnd
    rw [List.foldl_cons]
    simp only [List.length_cons]
    by_cases hn : n ∈ ks
    · have h2 : insKey ks n = ks := by simp [insKey, hn]
      rw [h2]
      have h1 := insKey_foldl_length_le rest ks
      omega
    · have h3 : (insKey ks n).length = ks.length + 1 := by simp [insKey, hn]
      have hcase : n ∈ rest ∨ ¬ rest.Nodup := by
        by_contra hc
        push_neg at hc
        exact hnd (List.nodup_cons.2 ⟨hc.1, hc.2⟩)
      rcases hcase with hr | hr
      · have h1 := insKey_foldl_length_lt_of_mem rest (insKey ks n)
          ⟨n, hr, by simp only [insKey, hn, if_neg]; exact List.mem_append_right _ (by simp)⟩
        omega
      · have h1 := ih (insKey ks n) hr
        omega

/-- Duplicate step names strictly shrink the snapshot's key count. -/
theorem walker_length_lt (p : Page)
    (h : ¬ ((extract_application_steps p).map (fun st => st.step_name)).Nodup) :
    (extract_all_steps_sequentially p).length <
      (extract_application_steps p).length := by
  have hk := walker_fold_keys p (extract_application_steps p) []
  have hlen : (extract_all_steps_sequentially p).length =
      ((extract_all_steps_sequentially p).map Prod.fst).length := by simp
  rw [hlen]
  unfold extract_all_steps_sequentially
  rw [hk]
  have := insKey_foldl_length_lt_of_dup
    ((extract_application_steps p).map (fun st => st.step_name)) [] h
  simpa using this

/-- Any field the aggregator returns was contributed by one of the eight base
extractors or by dynamic-section discovery. -/
theorem mem_extract_all_cases {p : Page} {b : Bool} {d : FormField}
    (h : d ∈ extract_all_form_fields p b) :
    d ∈ extract_multiselect_fields p ∨ d ∈ extract_button_dropdown_fields p ∨
    d ∈ extract_radio_fields p ∨ d ∈ extract_text_fields p ∨
    d ∈ extract_checkbox_fields p ∨ d ∈ extract_textarea_fields p ∨
    d ∈ extract_date_fields p ∨ d ∈ extract_file_upload_fields p ∨
    d ∈ extract_dynamic_section_fields p := by
  rw [extract_all_form_fields_eq] at h
  have hall := keepFirst_mem h
  rcases List.mem_append.1 hall with hb | hd
  · simp only [base_extractors, List.map_cons, List.map_nil, List.flatten_cons,
      List.flatten_nil, List.append_nil, List.mem_append] at hb
    tauto
  · cases b with
    | true => simp at hd
    | false => simp at hd; tauto

/-- A section-classified field of kind date comes from the date extractor. -/
theorem classify_date {c : Container} {f : FormField}
    (h : classifyContainer c = some f) (ht : f.type_of_input = "date") :
    extract_single_date_field c = some f := by
  unfold classifyContainer at h
  cases h1 : tryDropdown c with
  | some g =>
    simp [h1, Option.orElse] at h
    subst h
    rw [tryDropdown_type h1] at ht
    simp at ht
  | none =>
  cases h2 : tryText c with
  | some g =>
    simp [h1, h2, Option.orElse] at h
    subst h
    rcases Option.map_eq_some'.1 h2 with ⟨i, _, hf⟩
    rw [← hf] at ht
    simp [extract_single_text_field] at ht
  | none =>
  cases h3 : tryCheckbox c with
  | some g =>
    simp [h1, h2, h3, Option.orElse] at h
    subst h
    rcases Option.map_eq_some'.1 h3 with ⟨i, _, hf⟩
    rw [← hf] at ht
    simp [extract_single_checkbox_field] at ht
  | none =>
  cases h4 : tryTextarea c with
  | some g =>
    simp [h1, h2, h3, h4, Option.orElse] at h
    subst h
    rcases Option.map_eq_some'.1 h4 with ⟨t, _, hf⟩
    rw [← hf] at ht
    simp [extract_single_textarea_field] at ht
  | none =>
  cases h5 : tryDate c with
  | some g =>
    simp [h1, h2, h3, h4, h5, Option.orElse] at h
    subst h
    exact tryDate_date h5
  | none =>
  cases h6 : tryFile c with
  | some g =>
    simp [h1, h2, h3, h4, h5, h6, Option.orElse] at h
    subst h
    rcases Option.map_eq_some'.1 h6 with ⟨fu, _, hf⟩
    have := file_single_type c fu
    rw [hf] at this
    rw [ht] at this
    simp at this
  | none =>
    simp [h1, h2, h3, h4, h5, h6, Option.orElse] at h

theorem mem_date_fields {p : Page} {d : FormField}
    (h : d ∈ extract_date_fields p) :
    ∃ c f, extract_single_date_field c = some f ∧
      d = { f with section_name := "main" } := by
  rcases List.mem_filterMap.1 h with ⟨c, _, hc⟩
  by_cases hs : c.spinbutton
  · rw [if_pos hs] at hc
    rcases Option.map_eq_some'.1 hc with ⟨f, hf, hd⟩
    exact ⟨c, f, hf, hd.symm⟩
  · rw [if_neg hs] at hc; simp at hc

/-! Concrete fixtures used by the claim witnesses and counterexamples. -/

/-- A popup-read environment whose bounded wait succeeds with no options. -/
def emptyEnv : OptionReadEnv := { appears := true, optionTexts := [] }

/-- A form-field container with no recognizable control. -/
def emptyContainer : Container :=
  { trigger := none, textInput := none, checkbox := none, textarea := none,
    spinbutton := false, fieldset := none, fileUpload := none,
    labels := [], elementsById := [], plainLabels := [], optionRead := emptyEnv }

/-- A page with no content. -/
def emptyPage : Page :=
  { containers := [], multiSelects := [], sections := [], pageLabels := [],
    elementsById := [], progressQueryFails := false, progressItems := [] }

/-- A plain radio fieldset: no dropdown trigger, one checked radio. -/
def fs1r : Fieldset :=
  { legendRichTextP := none, legendLabel := some "Gender*", ariaRequired := none,
    hasTrigger := false,
    radios := [{ value := "m", id := "r1", checkedAttr := some "true",
                 ariaChecked := none }],
    groupDivId := some "gr1", groupDivFkit := none, dateWrapper := none,
    monthInput := none, yearInput := none }

/-- A dropdown fieldset that superficially resembles a radio group: it holds
both a dropdown trigger and a radio input. -/
def fs1d : Fieldset :=
  { legendRichTextP := some "Have you worked here before?*", legendLabel := none,
    ariaRequired := none, hasTrigger := true,
    radios := [{ value := "yes", id := "r2", checkedAttr := none,
                 ariaChecked := none }],
    groupDivId := some "gr2", groupDivFkit := none, dateWrapper := none,
    monthInput := none, yearInput := none }

/-- The trigger of the dropdown fieldset. -/
def b1d : TriggerButton :=
  { id := some "dd1", innerText := "Yes", ariaRequired := some "true",
    ariaLabel := none }

/-- Container of the trigger-plus-radio fieldset. -/
def c1d : Container := { emptyContainer with trigger := some b1d, fieldset := some fs1d }

/-- Container of the plain radio fieldset. -/
def c1r : Container := { emptyContainer with fieldset := some fs1r }

/-- Page with one dropdown-looking fieldset and one real radio group. -/
def pg1w : Page :=
  { emptyPage with containers := [c1d, c1r], pageLabels := [("r1", "Male")] }

/-- The radio descriptor the page above yields. -/
def d1w : FormField := mkRadioField pg1w fs1r

/-- C1: for every container holding both a dropdown trigger and radio inputs
the extraction pass classifies it as dropdown-button and never radio: the base
extractors run in the order multi-select, dropdown-button, radio, text,
checkbox, textarea, date, file-upload; the radio extractor draws only from
trigger-free radio-bearing fieldsets, so every radio-typed descriptor of the
pass stems from a fieldset without a trigger, while a container whose trigger
carries an id always yields a dropdown-button descriptor in the dropdown pass. -/
theorem c1_dropdown_button_precedence :
    (base_extractors =
      [extract_multiselect_fields, extract_button_dropdown_fields,
       extract_radio_fields, extract_text_fields, extract_checkbox_fields,
       extract_textarea_fields, extract_date_fields,
       extract_file_upload_fields]) ∧
    (∀ p : Page, extract_radio_fields p =
      ((Page.fieldsets p).filter
        (fun fs => !fs.hasTrigger && !(fs.radios.length == 0))).map
        (mkRadioField p)) ∧
    (∀ (p : Page) (b : Bool) (d : FormField), d ∈ extract_all_form_fields p b →
      d.type_of_input = "radio" →
      ∃ fs ∈ Page.fieldsets p, fs.hasTrigger = false ∧ fs.radios ≠ [] ∧
        d = mkRadioField p fs) ∧
    (∀ (p : Page) (c : Container) (tb : TriggerButton), c ∈ p.containers →
      c.trigger = some tb → pyTruthy tb.id = true →
      ∃ f, dropdownFieldOf c = some f ∧ f ∈ extract_button_dropdown_fields p ∧
        f.type_of_input = "dropdown-button") := by
  refine ⟨rfl, extract_radio_fields_eq, ?_, ?_⟩
  · intro p b d hmem htype
    rcases mem_extract_all_cases hmem with h | h | h | h | h | h | h | h | h
    · rw [types_multiselect h] at htype; exact absurd htype (by decide)
    · rw [types_dropdown h] at htype; exact absurd htype (by decide)
    · exact radio_provenance h
    · rw [types_text h] at htype; exact absurd htype (by decide)
    · rw [types_checkbox h] at htype; exact absurd htype (by decide)
    · rw [types_textarea h] at htype; exact absurd htype (by decide)
    · rw [types_date h] at htype; exact absurd htype (by decide)
    · have := types_file h
      rw [htype] at this
      exact absurd this (by decide)
    · have := types_dynamic h
      rw [htype] at this
      exact absurd this (by decide)
  · intro p c tb hc htr hid
    rcases @dropdown_single_of_truthy c tb hid with ⟨f0, hf0⟩
    have hval : ∃ f, dropdownFieldOf c = some f := by
      simp [dropdownFieldOf, htr, hf0]
    rcases hval with ⟨f, hfeq⟩
    exact ⟨f, hfeq, List.mem_filterMap.2 ⟨c, hc, hfeq⟩, dropdownFieldOf_type hfeq⟩

theorem c1_witness :
    (∃ fs ∈ Page.fieldsets pg1w, fs.hasTrigger = false ∧ fs.radios ≠ [] ∧
      d1w = mkRadioField pg1w fs) ∧
    (∃ f, dropdownFieldOf c1d = some f ∧ f ∈ extract_button_dropdown_fields pg1w ∧
      f.type_of_input = "dropdown-button") :=
  ⟨c1_dropdown_button_precedence.2.2.1 pg1w false d1w (by decide) (by decide),
   c1_dropdown_button_precedence.2.2.2 pg1w c1d b1d (by decide) (by decide)
     (by decide)⟩

/-- The option-read environment of a choice field whose bounded wait for the
option list elapses. -/
def env2 : OptionReadEnv := { appears := false, optionTexts := [] }

/-- A multi-select container whose picklist never appears within the wait. -/
def ms2 : MSContainer :=
  { id := some "ms1", ancestorLabel := some "How Did You Hear About Us?",
    ariaRequired := none, pills := ["Referral"], dropdownPresent := true,
    optionRead := env2 }

/-- C2: evaluating the option reads at a failing input (the bounded wait for
the option list times out): both the dropdown-button read and the multiselect
read end with the popup still open, because the raised timeout skips the
closing click or Escape key, contradicting the closed-popup guarantee on every
exit path. -/
theorem c2_popup_left_open :
    env2.appears = false ∧
    dropdownOptionRead env2 = ([], PopupState.opened) ∧
    multiselectOptionRead ms2 = Except.error PopupState.opened :=
  ⟨rfl, rfl, rfl⟩

/-- A text input duplicated across two identical containers. -/
def i3 : TextInputEl :=
  { id := some "a1", value := "ada@example.com", ariaRequired := none,
    ariaLabel := none }

/-- The container holding the duplicated text input. -/
def c3a : Container :=
  { emptyContainer with textInput := some i3, labels := [("a1", "Email*")] }

/-- A page rendering the same field twice, forcing key de-duplication. -/
def pg3w : Page := { emptyPage with containers := [c3a, c3a] }

/-- The descriptor the duplicated field yields. -/
def f3w : FormField :=
  { extract_single_text_field c3a i3 with section_name := "main" }

/-- C3: the aggregator keeps at most one descriptor per key label + "_" + id,
the first-encountered descriptor for a key wins, later ones are discarded but
their key stays represented, and the dynamic-section fields are merged after
the base extractors under the same key (the feed order of `allExtracted`). -/
theorem c3_dedup_by_label_id :
    ∀ (p : Page) (b : Bool),
      extract_all_form_fields p b = keepFirst (allExtracted p b) [] ∧
      allExtracted p b = (base_extractors.map (fun ex => ex p)).flatten ++
        (if b then [] else extract_dynamic_section_fields p) ∧
      ((extract_all_form_fields p b).map fieldKey).Nodup ∧
      (∀ f ∈ extract_all_form_fields p b,
        (allExtracted p b).find? (fun g => fieldKey g == fieldKey f) = some f) ∧
      (∀ g ∈ allExtracted p b,
        ∃ f ∈ extract_all_form_fields p b, fieldKey f = fieldKey g) := by
  intro p b
  refine ⟨extract_all_form_fields_eq p b, rfl, ?_, ?_, ?_⟩
  · rw [extract_all_form_fields_eq]
    exact keepFirst_keys_nodup _ []
  · intro f hf
    rw [extract_all_form_fields_eq] at hf
    exact keepFirst_find? hf
  · intro g hg
    rw [extract_all_form_fields_eq]
    exact keepFirst_covers hg (by simp)

theorem c3_witness :
    ((extract_all_form_fields pg3w false).map fieldKey).Nodup ∧
    (allExtracted pg3w false).find? (fun g => fieldKey g == fieldKey f3w) =
      some f3w ∧
    (∃ f ∈ extract_all_form_fields pg3w false, fieldKey f = fieldKey f3w) :=
  ⟨(c3_dedup_by_label_id pg3w false).2.2.1,
   (c3_dedup_by_label_id pg3w false).2.2.2.1 f3w (by decide),
   (c3_dedup_by_label_id pg3w false).2.2.2.2 f3w (by decide)⟩

/-- A dropdown trigger and a text input sharing one container, with distinct
element ids. -/
def b4 : TriggerButton :=
  { id := some "b1", innerText := "Select One", ariaRequired := none,
    ariaLabel := none }

/-- The text input sitting next to the trigger. -/
def i4 : TextInputEl :=
  { id := some "t1", value := "", ariaRequired := none, ariaLabel := none }

/-- One physical container holding both controls. -/
def c4a : Container :=
  { emptyContainer with
      trigger := some b4
      textInput := some i4
      labels := [("b1", "Country"), ("t1", "Country")] }

/-- A page with that single container. -/
def pg4 : Page := { emptyPage with containers := [c4a] }

/-- C4 counterexample: one physical container is reported twice by the
top-level pass, once as dropdown-button and once as text, because the
label + id keys differ; so earlier extractors do not suppress later ones per
container in the aggregator. -/
theorem c4_counterexample :
    pg4.containers.length = 1 ∧
    (extract_all_form_fields pg4 false).map (fun f => f.type_of_input) =
      ["dropdown-button", "text"] := by
  exact ⟨rfl, by decide⟩

/-- C4 amended: the one-descriptor-per-container suppression holds in
section-specific extraction, where the per-container kind chain emits at most
one descriptor and a matching dropdown trigger suppresses all later kind
tests; in the top-level pass suppression happens only through the label-plus-id
de-duplication key, so a container whose controls carry different ids can be
reported under two kinds. -/
theorem c4_amended :
    (∀ (cs : List Container) (nm : String),
      (extract_section_specific_fields cs nm).length ≤ cs.length) ∧
    (∀ (c : Container) (tb : TriggerButton) (f : FormField), c.trigger = some tb →
      extract_single_dropdown_button_field c tb = some f →
      classifyContainer c = some f) := by
  constructor
  · intro cs nm
    exact List.length_filterMap_le _ _
  · intro c tb f htr hf
    simp [classifyContainer, tryDropdown, htr, hf, Option.orElse]

/-- The dropdown descriptor of the shared container. -/
def f4 : FormField :=
  { label := "Country", id_of_input_component := some "b1", required := false,
    type_of_input := "dropdown-button", options := [],
    user_data_select_values := [], section_name := "" }

theorem c4_witness :
    (extract_section_specific_fields [c4a] "Work Experience").length ≤ 1 ∧
    classifyContainer c4a = some f4 :=
  ⟨c4_amended.1 [c4a] "Work Experience",
   c4_amended.2 c4a b4 f4 (by decide) (by decide)⟩

/-- A text input with no label marker and no aria-required, whose accessible
label contains the word Required. -/
def i5 : TextInputEl :=
  { id := some "x1", value := "", ariaRequired := none,
    ariaLabel := some "Email Required field" }

/-- The container of that text input. -/
def c5a : Container :=
  { emptyContainer with textInput := some i5, labels := [("x1", "Email")] }

/-- C5 counterexample: the text extractor never reads the accessible label, so
its required flag is false on an input for which the claimed uniform
three-test rule yields true; the three tests are not applied uniformly across
kinds. -/
theorem c5_counterexample :
    (extract_single_text_field c5a i5).required = false ∧
    specRequired (forLabelText c5a i5.id) i5.ariaRequired i5.ariaLabel = true := by
  exact ⟨by decide, by decide⟩

/-- C5 amended: required detection is kind-specific — the dropdown-button
extractor applies all three tests (label marker, aria-required, accessible
label containing Required); the text, checkbox, textarea, multi-select and
radio extractors apply the label-marker and aria-required tests only; the
date and file-upload extractors apply the label-marker test only. -/
theorem c5_amended :
    (∀ (c : Container) (tb : TriggerButton) (f : FormField),
      extract_single_dropdown_button_field c tb = some f →
      f.required =
        specRequired (dropdownLabelText c tb) tb.ariaRequired tb.ariaLabel) ∧
    (∀ (c : Container) (i : TextInputEl),
      (extract_single_text_field c i).required =
        (strContains (forLabelText c i.id) "*" || i.ariaRequired == some "true")) ∧
    (∀ (c : Container) (i : CheckboxEl),
      (extract_single_checkbox_field c i).required =
        (strContains (forLabelText c i.id) "*" || i.ariaRequired == some "true")) ∧
    (∀ (c : Container) (t : TextareaEl),
      (extract_single_textarea_field c t).required =
        (strContains (forLabelText c t.id) "*" || t.ariaRequired == some "true")) ∧
    (∀ (m : MSContainer) (f : FormField), msFieldOf m = some f →
      f.required =
        (strContains (msLabelText m) "*" || m.ariaRequired == some "true")) ∧
    (∀ (p : Page) (fs : Fieldset),
      (mkRadioField p fs).required =
        (strContains (radioLabelText fs) "*" || fs.ariaRequired == some "true")) ∧
    (∀ (c : Container) (fs : Fieldset) (f : FormField), c.fieldset = some fs →
      extract_single_date_field c = some f →
      f.required = strContains (dateLabelText fs) "*") ∧
    (∀ (c : Container) (fu : FileUploadEl),
      (extract_single_file_upload_field c fu).required =
        strContains (fileLabelTextC c fu) "*") ∧
    (∀ (p : Page) (idx : Nat) (fu : FileUploadEl),
      (mkTopFileUploadField p idx fu).required =
        strContains (fileLabelTextP p fu) "*") := by
  refine ⟨?_, fun c i => rfl, fun c i => rfl, fun c t => rfl, ?_,
    fun p fs => rfl, ?_, fun c fu => rfl, fun p idx fu => rfl⟩
  · intro c tb f h
    unfold extract_single_dropdown_button_field at h
    by_cases hb : pyTruthy tb.id
    · simp only [hb, if_true, Option.some.injEq] at h
      rw [← h]
      rfl
    · simp [hb] at h
  · intro m f h
    unfold msFieldOf at h
    cases hr : multiselectOptionRead m with
    | error st => rw [hr] at h; simp at h
    | ok r =>
      rw [hr] at h
      simp only [Option.some.injEq] at h
      rw [← h]
  · intro c fs f hfs h
    simp only [extract_single_date_field, hfs, Option.some.injEq] at h
    rw [← h]

/-- A dropdown trigger whose aria-label carries the word Required. -/
def tb5 : TriggerButton :=
  { id := some "dd5", innerText := "Select One", ariaRequired := none,
    ariaLabel := some "Required - Degree" }

/-- Container of that trigger. -/
def c5d : Container :=
  { emptyContainer with trigger := some tb5, labels := [("dd5", "Degree")] }

/-- The dropdown descriptor emitted for that trigger. -/
def f5 : FormField :=
  { label := "Degree", id_of_input_component := some "dd5", required := true,
    type_of_input := "dropdown-button", options := [],
    user_data_select_values := [], section_name := "" }

theorem c5_witness :
    f5.required =
      specRequired (dropdownLabelText c5d tb5) tb5.ariaRequired tb5.ariaLabel ∧
    (extract_single_text_field c5a i5).required =
      (strContains (forLabelText c5a i5.id) "*" || i5.ariaRequired == some "true") :=
  ⟨c5_amended.1 c5d tb5 f5 (by decide), c5_amended.2.1 c5a i5⟩

/-- A progress bar whose second item fails to read. -/
def pg6 : Page :=
  { emptyPage with progressItems :=
      [{ labelText := ReadResult.ok "Step A", automationId := none },
       { labelText := ReadResult.err "timeout", automationId := none }] }

/-- C6 counterexample: with the second progress item raising during the read,
the step reader returns the one step accumulated before the failure — a
partially populated sequence, not the empty one the claim requires. -/
theorem c6_counterexample :
    pg6.progressItems.length = 2 ∧
    pg6.progressItems.getLast? =
      some { labelText := ReadResult.err "timeout", automationId := none } ∧
    extract_application_steps pg6 =
      [{ step_name := "Step A", is_current_step := false }] ∧
    extract_application_steps pg6 ≠ [] := by
  exact ⟨rfl, rfl, by decide, by decide⟩

/-- C6 amended: the step reader is total; when the initial progress-bar query
fails it returns the empty sequence, and when an individual item fails it
returns the steps of the longest prefix of successfully read items — possibly
partial and non-empty. -/
theorem c6_amended :
    ∀ p : Page,
      extract_application_steps p =
        if p.progressQueryFails then []
        else (p.progressItems.takeWhile (fun it => isOkRead it.labelText)).map
          stepOfOkItem :=
  extract_application_steps_eq

/-- A required text field with a value, visible on the current page. -/
def i7 : TextInputEl :=
  { id := some "fn", value := "Ada", ariaRequired := none, ariaLabel := none }

/-- Container of that field. -/
def c7a : Container :=
  { emptyContainer with textInput := some i7, labels := [("fn", "First Name*")] }

/-- A page whose two progress steps share the name "Review", the first one
current. -/
def pg7 : Page :=
  { emptyPage with
      containers := [c7a]
      progressItems :=
        [{ labelText := ReadResult.ok "Review",
           automationId := some "progressBarActiveStep" },
         { labelText := ReadResult.ok "Review", automationId := none }] }

/-- C7 counterexample: with two steps resolving to the same name the snapshot
holds a single entry rather than one per progress step, and the current step's
non-empty field list is overwritten by the later non-current step's empty
list. -/
theorem c7_counterexample :
    extract_application_steps pg7 =
      [{ step_name := "Review", is_current_step := true },
       { step_name := "Review", is_current_step := false }] ∧
    (extract_all_form_fields pg7 false).length = 1 ∧
    extract_all_steps_sequentially pg7 = [("Review", [])] := by
  exact ⟨by decide, by decide, by decide⟩

/-- C7 amended: for every successful run in which the resolved step names are
pairwise distinct, the snapshot has one entry per progress-indicator step, in
indicator order, the current step mapping to the aggregator's output for the
visible page and every other step to the empty list. -/
theorem c7_amended (p : Page)
    (h : ((extract_application_steps p).map (fun st => st.step_name)).Nodup) :
    extract_all_steps_sequentially p =
      (extract_application_steps p).map
        (fun st => (st.step_name,
          if st.is_current_step then extract_all_form_fields p false else [])) := by
  unfold extract_all_steps_sequentially
  have hw := walker_fold_nodup p (extract_application_steps p) [] h (by simp)
  simpa [stepValue] using hw

/-- A three-step page, second step current, holding one required text field. -/
def pg7w : Page :=
  { emptyPage with
      containers := [c7a]
      progressItems :=
        [{ labelText := ReadResult.ok "My Information", automationId := none },
         { labelText := ReadResult.ok "Experience",
           automationId := some "progressBarActiveStep" },
         { labelText := ReadResult.ok "Review", automationId := none }] }

theorem c7_witness :
    extract_all_steps_sequentially pg7w =
      (extract_application_steps pg7w).map
        (fun st => (st.step_name,
          if st.is_current_step then extract_all_form_fields pg7w false else [])) :=
  c7_amended pg7w (by decide)

/-- C8: a date descriptor's current value is the single entry month/year
exactly when both sub-inputs are non-blank and is empty when either part is
blank, and date descriptors always carry empty options — at the single-field
level against the sub-inputs, and for every date-typed descriptor any
aggregator pass emits. -/
theorem c8_date_value_join :
    (∀ (c : Container) (fs : Fieldset) (f : FormField), c.fieldset = some fs →
      extract_single_date_field c = some f →
      f.options = [] ∧
      (fs.monthInput.getD "" ≠ "" ∧ fs.yearInput.getD "" ≠ "" →
        f.user_data_select_values =
          [fs.monthInput.getD "" ++ "/" ++ fs.yearInput.getD ""]) ∧
      ((fs.monthInput.getD "" = "" ∨ fs.yearInput.getD "" = "") →
        f.user_data_select_values = [])) ∧
    (∀ (p : Page) (b : Bool) (d : FormField), d ∈ extract_all_form_fields p b →
      d.type_of_input = "date" →
      d.options = [] ∧
      (d.user_data_select_values = [] ∨
        ∃ m y, m ≠ "" ∧ y ≠ "" ∧
          d.user_data_select_values = [m ++ "/" ++ y])) := by
  constructor
  · intro c fs f hfs h
    exact date_single_shape hfs h
  · intro p b d hmem htype
    rcases mem_extract_all_cases hmem with h | h | h | h | h | h | h | h | h
    · rw [types_multiselect h] at htype; exact absurd htype (by decide)
    · rw [types_dropdown h] at htype; exact absurd htype (by decide)
    · rw [types_radio h] at htype; exact absurd htype (by decide)
    · rw [types_text h] at htype; exact absurd htype (by decide)
    · rw [types_checkbox h] at htype; exact absurd htype (by decide)
    · rw [types_textarea h] at htype; exact absurd htype (by decide)
    · rcases mem_date_fields h with ⟨c, f, hf, hd⟩
      rcases date_single_values_shape hf with ⟨hopt, hval⟩
      subst hd
      constructor
      · simpa using hopt
      · simpa using hval
    · have := types_file h
      rw [htype] at this
      exact absurd this (by decide)
    · rcases mem_dynamic_sections h with ⟨s, _, hsf⟩
      rcases mem_section_specific hsf with ⟨c, _, f0, hcl, hd⟩
      have htype0 : f0.type_of_input = "date" := by
        rw [hd] at htype
        simpa using htype
      have hdate := classify_date hcl htype0
      rcases date_single_values_shape hdate with ⟨hopt, hval⟩
      subst hd
      constructor
      · simpa using hopt
      · simpa using hval

/-- A complete date fieldset with both sub-inputs filled. -/
def fs8 : Fieldset :=
  { legendRichTextP := none, legendLabel := some "Start Date*",
    ariaRequired := none, hasTrigger := false, radios := [],
    groupDivId := none, groupDivFkit := none, dateWrapper := some (some "dw8"),
    monthInput := some "04", yearInput := some "2021" }

/-- Container of the date fieldset. -/
def c8a : Container :=
  { emptyContainer with spinbutton := true, fieldset := some fs8 }

/-- Page with the single date field. -/
def pg8 : Page := { emptyPage with containers := [c8a] }

/-- The date descriptor the single extractor emits. -/
def f8 : FormField :=
  { label := "Start Date", id_of_input_component := some "dw8", required := true,
    type_of_input := "date", options := [],
    user_data_select_values := ["04/2021"], section_name := "" }

/-- The date descriptor as it appears in the aggregator's output. -/
def d8 : FormField := { f8 with section_name := "main" }

theorem c8_witness :
    (f8.options = [] ∧
      (fs8.monthInput.getD "" ≠ "" ∧ fs8.yearInput.getD "" ≠ "" →
        f8.user_data_select_values =
          [fs8.monthInput.getD "" ++ "/" ++ fs8.yearInput.getD ""]) ∧
      ((fs8.monthInput.getD "" = "" ∨ fs8.yearInput.getD "" = "") →
        f8.user_data_select_values = [])) ∧
    (d8.options = [] ∧
      (d8.user_data_select_values = [] ∨
        ∃ m y, m ≠ "" ∧ y ≠ "" ∧ d8.user_data_select_values = [m ++ "/" ++ y])) :=
  ⟨c8_date_value_join.1 c8a fs8 f8 (by decide) (by decide),
   c8_date_value_join.2 pg8 false d8 (by decide) (by decide)⟩

/-- A dropdown trigger lacking an id attribute. -/
def b9 : TriggerButton :=
  { id := none, innerText := "Select One", ariaRequired := none,
    ariaLabel := none }

/-- The container holding only that trigger. -/
def c9a : Container := { emptyContainer with trigger := some b9 }

/-- A page with the id-less dropdown container. -/
def pg9 : Page := { emptyPage with containers := [c9a] }

/-- C9 counterexample: a recognized dropdown container whose trigger carries
no id attribute is dropped entirely — the pass emits no descriptor at all, so
neither the label "Unknown" nor a synthetic kind-and-position identifier is
produced for it. -/
theorem c9_counterexample :
    c9a.trigger = some b9 ∧
    b9.id = none ∧
    extract_single_dropdown_button_field c9a b9 = none ∧
    extract_all_form_fields pg9 false = [] := by
  exact ⟨rfl, rfl, by decide, by decide⟩

theorem file_upload_id_ne_empty (idx : Nat) :
    ("file-upload-" ++ toString idx) ≠ "" := by
  intro h
  have hl := congrArg String.length h
  rw [String.length_append] at hl
  have h1 : ("file-upload-" : String).length = 12 := rfl
  have h0 : ("" : String).length = 0 := rfl
  omega

/-- C9 amended: unresolved labels fall back to "Unknown" for label-for based
kinds but to "File Upload" for file uploads and "Date" for date fields;
identifier fallbacks are kind-specific — the radio extractor and the date
extractor fall back to the literal "unknown", the container-scoped file-upload
helper to "unknown", only the page-level file-upload extractor synthesizes
"file-upload-<n>" from kind and position, and a dropdown-button whose trigger
has no truthy id is dropped (its helper returns no descriptor). -/
theorem c9_amended :
    (∀ (c : Container) (tb : TriggerButton), pyTruthy tb.id = false →
      extract_single_dropdown_button_field c tb = none) ∧
    (∀ (c : Container) (i : TextInputEl), aFind c.labels (idStr i.id) = none →
      (extract_single_text_field c i).label = "Unknown") ∧
    (∀ (p : Page) (fs : Fieldset), pyTruthy fs.groupDivId = false →
      pyTruthy fs.groupDivFkit = false →
      (mkRadioField p fs).id_of_input_component = some "unknown") ∧
    (∀ (c : Container) (fs : Fieldset), c.fieldset = some fs →
      fs.dateWrapper = none →
      (extract_single_date_field c).map (fun f => f.id_of_input_component) =
        some (some "unknown")) ∧
    (∀ (c : Container) (fs : Fieldset), c.fieldset = some fs →
      fs.legendLabel = none →
      (extract_single_date_field c).map (fun f => f.label) = some "Date") ∧
    (∀ (p : Page) (idx : Nat) (fu : FileUploadEl), fu.fileInput = none →
      (mkTopFileUploadField p idx fu).id_of_input_component =
        some ("file-upload-" ++ toString idx)) ∧
    (∀ (c : Container) (fu : FileUploadEl), fu.fileInput = none →
      (extract_single_file_upload_field c fu).id_of_input_component =
        some "unknown") ∧
    (∀ (c : Container) (fu : FileUploadEl), fu.ariaLabelledby = none →
      c.plainLabels = [] →
      (extract_single_file_upload_field c fu).label = "File Upload") := by
  refine ⟨?_, ?_, ?_, ?_, ?_, ?_, ?_, ?_⟩
  · intro c tb h
    simp [extract_single_dropdown_button_field, h]
  · intro c i h
    show pyStrip (removeStars (forLabelText c i.id)) = "Unknown"
    unfold forLabelText
    rw [h]
    decide
  · intro p fs h1 h2
    simp [mkRadioField, pyOr, pyOrS, h1, h2]
  · intro c fs hfs h
    simp [extract_single_date_field, hfs, h]
  · intro c fs hfs h
    simp only [extract_single_date_field, hfs, dateLabelText, h, Option.map_some',
      Option.getD_none, Option.some.injEq]
    decide
  · intro p idx fu h
    have htr : pyTruthy (some ("file-upload-" ++ toString idx)) = true := by
      simp [pyTruthy, file_upload_id_ne_empty idx]
    simp [mkTopFileUploadField, h, pyOrS, htr]
  · intro c fu h
    simp [extract_single_file_upload_field, h, pyOrS, pyTruthy]
  · intro c fu h1 h2
    show pyStrip (removeStars (fileLabelTextC c fu)) = "File Upload"
    have hl : fileLabelTextC c fu = "File Upload" := by
      unfold fileLabelTextC
      rw [h1, h2]
      rfl
    rw [hl]
    decide

/-- A radio fieldset whose inner container exposes no identifier. -/
def fs9 : Fieldset :=
  { legendRichTextP := none, legendLabel := some "Choices", ariaRequired := none,
    hasTrigger := false,
    radios := [{ value := "a", id := "r9", checkedAttr := none,
                 ariaChecked := none }],
    groupDivId := none, groupDivFkit := none, dateWrapper := none,
    monthInput := none, yearInput := none }

/-- A file-upload widget with no file input and no label reference. -/
def fu9 : FileUploadEl :=
  { ariaLabelledby := none, fileInput := none, selectFiles := none,
    fileItems := [], parentLabel := some "Resume/CV" }

theorem c9_witness :
    (mkRadioField pg9 fs9).id_of_input_component = some "unknown" ∧
    (mkTopFileUploadField pg9 0 fu9).id_of_input_component =
      some ("file-upload-" ++ toString 0) ∧
    (extract_single_file_upload_field c9a fu9).label = "File Upload" :=
  ⟨c9_amended.2.2.1 pg9 fs9 (by decide) (by decide),
   c9_amended.2.2.2.2.2.1 pg9 0 fu9 (by decide),
   c9_amended.2.2.2.2.2.2.2 c9a fu9 (by decide) (by decide)⟩

/-- C10: the snapshot is keyed by step name, so the entry finally associated
with a name is the one of the last progress step bearing it — a later
non-current step overwrites an earlier current step's fields with the empty
list — and when two or more steps share a name the snapshot has strictly
fewer keys than there are progress items. -/
theorem c10_same_name_overwrite :
    (∀ (p : Page) (k : String),
      (extract_all_steps_sequentially p).find? (fun e => e.1 == k) =
        match ((extract_application_steps p).filter
            (fun st => st.step_name == k)).getLast? with
        | some st =>
          some (k,
            if st.is_current_step then extract_all_form_fields p false else [])
        | none => none) ∧
    (∀ p : Page,
      ¬ ((extract_application_steps p).map (fun st => st.step_name)).Nodup →
      (extract_all_steps_sequentially p).length <
        (extract_application_steps p).length) := by
  constructor
  · intro p k
    unfold extract_all_steps_sequentially
    rw [walker_fold_lookup]
    cases hl : ((extract_application_steps p).filter
        (fun st => st.step_name == k)).getLast? with
    | some st => simp [stepValue]
    | none => simp
  · intro p h
    exact walker_length_lt p h

/-- A text field on the duplicate-step page. -/
def i10 : TextInputEl :=
  { id := some "em", value := "x@y.z", ariaRequired := none, ariaLabel := none }

/-- Container of that field. -/
def c10a : Container :=
  { emptyContainer with textInput := some i10, labels := [("em", "Email")] }

/-- A page whose two progress steps both resolve to "Details", the first one
current. -/
def pg10 : Page :=
  { emptyPage with
      containers := [c10a]
      progressItems :=
        [{ labelText := ReadResult.ok "Details",
           automationId := some "progressBarActiveStep" },
         { labelText := ReadResult.ok "Details", automationId := none }] }

theorem c10_witness :
    ((extract_all_steps_sequentially pg10).find? (fun e => e.1 == "Details") =
      match ((extract_application_steps pg10).filter
          (fun st => st.step_name == "Details")).getLast? with
      | some st =>
        some ("Details",
          if st.is_current_step then extract_all_form_fields pg10 false else [])
      | none => none) ∧
    (extract_all_steps_sequentially pg10).length <
      (extract_application_steps pg10).length :=
  ⟨c10_same_name_overwrite.1 pg10 "Details",
   c10_same_name_overwrite.2 pg10 (by decide)⟩

end Workday
